import Mathlib

/-!
Shallow embedding of the NoteVault sources (`src/NoteVault/password.py`,
`database.py`, `config.py`, `main.py`) together with idealized models of the
external cryptographic primitives (`cryptography.hazmat...Scrypt`,
`cryptography.fernet.Fernet`) and of the sqlite storage engine, which are not
part of the repository and are therefore modelled from the specification.
-/

set_option maxHeartbeats 1000000

/-! ## password.py -/

/-- `string.punctuation` membership: the ASCII punctuation characters,
codes 33..47, 58..64, 91..96 and 123..126. -/
def isAsciiPunctuation (c : Char) : Bool :=
  (33 ≤ c.toNat && c.toNat ≤ 47) || (58 ≤ c.toNat && c.toNat ≤ 64) ||
  (91 ≤ c.toNat && c.toNat ≤ 96) || (123 ≤ c.toNat && c.toNat ≤ 126)

/-- `VALID_CHARS = set(string.ascii_letters + string.digits + string.punctuation)`. -/
def VALID_CHARS (c : Char) : Bool :=
  c.isAlpha || c.isDigit || isAsciiPunctuation c

/-- `password_meets_requirements` (password.py lines 26-31): length in [8, 32]
and every character in `VALID_CHARS`. -/
def password_meets_requirements (password : String) : Bool :=
  if password.length < 8 || password.length > 32 then false
  else if password.data.any (fun c => !(VALID_CHARS c)) then false
  else true

/-- Modelled from the spec: the output of the Scrypt KDF (the `cryptography`
library, absent from the repository) is an ephemeral 32-byte value that is a
deterministic function of `(password, salt)`, with different passwords and
different salts yielding independent outputs.  The model represents the
derived key opaquely by the `(password, salt)` pair that determines it. -/
structure ScryptKey where
  password : String
  salt : String
deriving DecidableEq, Repr

/-- `derive_key` (password.py lines 53-61): run the Scrypt KDF with the fixed
parameters `n=2^14, r=8, p=1, length=32` on the password and salt. -/
def derive_key (password salt : String) : ScryptKey :=
  { password := password, salt := salt }

/-- Modelled from the spec: `Scrypt.verify` (external library) recomputes the
derived key and raises `InvalidKey` exactly when it differs from the expected
key. -/
def scrypt_verify (password salt : String) (key : ScryptKey) : Except Unit Unit :=
  if derive_key password salt = key then .ok () else .error ()

/-- `verify_password` (password.py lines 38-50): call `Scrypt.verify`, catch
`InvalidKey` and return `False`, otherwise return `True`. -/
def verify_password (password salt : String) (key : ScryptKey) : Bool :=
  match scrypt_verify password salt key with
  | .ok _ => true
  | .error _ => false

/-! ## Byte-level serialization used by the Fernet model

Tokens are lists of bytes (naturals < 256).  A natural number is encoded
little-endian in base 255 (digits 0..254) and terminated by the byte 255;
a string is encoded as its length followed by the encodings of its
characters' code points. -/

/-- Base-255 digits of `n`, little-endian; computed with fuel (the first
argument) so that the definition is structural, `fuel ≥ n` suffices. -/
def natEncAux : Nat → Nat → List Nat
  | _, 0 => []
  | 0, _ + 1 => []
  | fuel + 1, n + 1 => ((n + 1) % 255) :: natEncAux fuel ((n + 1) / 255)

/-- Self-delimiting byte encoding of a natural number. -/
def natEnc (n : Nat) : List Nat := natEncAux n n ++ [255]

/-- Decode one `natEnc` value from the front of a byte list. -/
def natDec : List Nat → Option (Nat × List Nat)
  | [] => none
  | b :: rest =>
    if b = 255 then some (0, rest)
    else
      match natDec rest with
      | some (m, rest2) => some (b + 255 * m, rest2)
      | none => none

/-- Decode `k` code points from the front of a byte list. -/
def charsDec : Nat → List Nat → Option (List Char × List Nat)
  | 0, rest => some ([], rest)
  | k + 1, rest =>
    match natDec rest with
    | none => none
    | some (n, rest2) =>
      match charsDec k rest2 with
      | none => none
      | some (cs, rest3) => some (Char.ofNat n :: cs, rest3)

/-- Byte encoding of a string: its length, then its characters' code points. -/
def strEnc (s : String) : List Nat :=
  natEnc s.data.length ++ s.data.flatMap (fun c => natEnc c.toNat)

/-- Decode one `strEnc` value from the front of a byte list. -/
def strDec (bytes : List Nat) : Option (String × List Nat) :=
  match natDec bytes with
  | none => none
  | some (len, rest) =>
    match charsDec len rest with
    | none => none
    | some (cs, rest2) => some (String.mk cs, rest2)

/-- Integrity tag of the Fernet model: the byte sum of the body modulo 256.
Any single-byte change to the body changes it. -/
def sumMod (bytes : List Nat) : Nat := bytes.sum % 256

/-- Modelled from the spec: `Fernet.encrypt` (external library) produces a
self-contained token embedding the fresh nonce and an integrity tag, bound to
the encryption key.  The model serializes the plaintext, the nonce and the
key into a byte body and appends an integrity tag over the body. -/
def fernet_encrypt (key : ScryptKey) (nonce : Nat) (data : String) : List Nat :=
  let body := strEnc data ++ natEnc nonce ++ strEnc key.password ++ strEnc key.salt
  body ++ [sumMod body]

/-- Modelled from the spec: `Fernet.decrypt` (external library) verifies the
token's integrity tag and key binding and fails (raises `InvalidToken`, the
`CipherError` of the spec, here `none`) on any mismatch; it never returns
partially decrypted data. -/
def fernet_decrypt (key : ScryptKey) (token : List Nat) : Option String :=
  match token.getLast? with
  | none => none
  | some tag =>
    let body := token.dropLast
    if sumMod body = tag then
      match strDec body with
      | none => none
      | some (data, r1) =>
        match natDec r1 with
        | none => none
        | some (_, r2) =>
          match strDec r2 with
          | none => none
          | some (p, r3) =>
            match strDec r3 with
            | none => none
            | some (s, r4) =>
              if r4 = [] ∧ p = key.password ∧ s = key.salt then some data else none
    else none

/-! ## Encoder (password.py lines 64-82) -/

/-- `Encoder`: holds the Fernet cipher built from the derived key; the field
`password_hash` stores the derived key itself. -/
structure Encoder where
  password_hash : ScryptKey
deriving DecidableEq, Repr

/-- `Encoder.__init__`: derive the key from password and salt, keep it both as
the cipher key and as `password_hash`. -/
def Encoder.init (password salt : String) : Encoder :=
  { password_hash := derive_key password salt }

/-- `Encoder.encode`: encrypt the UTF-8 encoding of `data` with the session
Fernet cipher; the nonce chosen by the library is made explicit. -/
def Encoder.encode (e : Encoder) (nonce : Nat) (data : String) : List Nat :=
  fernet_encrypt e.password_hash nonce data

/-- `Encoder.decode`: decrypt a token with the session Fernet cipher. -/
def Encoder.decode (e : Encoder) (token : List Nat) : Option String :=
  fernet_decrypt e.password_hash token

/-! ## database.py -/

/-- The sqlite table `records(name TEXT PRIMARY KEY, body TEXT)`, modelled as
the list of its rows in insertion order.  Modelled from the spec: the sqlite
engine itself is external; `PRIMARY KEY` makes `name` a unique key and a
duplicate `INSERT` fails with an `IntegrityError` (the `DuplicateTitleError`
of the spec) instead of overwriting. -/
abbrev Database := List (String × String)

/-- `Database.fetch_record` (database.py lines 26-34): `SELECT body FROM
records WHERE name = ?`, `None` when no row matches. -/
def fetch_record : Database → String → Option String
  | [], _ => none
  | (name, body) :: rest, title =>
    if name = title then some body else fetch_record rest title

/-- The error raised by a duplicate `INSERT` on the unique `name` column. -/
inductive DuplicateTitleError where
  | duplicateTitle
deriving DecidableEq, Repr

/-- `Database.add_record` (database.py lines 36-41): `INSERT INTO records
VALUES(?, ?)`; fails on a duplicate title, otherwise appends the row. -/
def add_record (db : Database) (title body : String) :
    Except DuplicateTitleError Database :=
  match fetch_record db title with
  | some _ => .error .duplicateTitle
  | none => .ok (db ++ [(title, body)])

/-- `Database.del_record` (database.py lines 43-48): `DELETE FROM records
WHERE name = ?`; removes matching rows, a no-op when none match. -/
def del_record : Database → String → Database
  | [], _ => []
  | (name, body) :: rest, title =>
    if name = title then del_record rest title
    else (name, body) :: del_record rest title

/-! ## config.py -/

/-- The persisted artifacts in the storage directory: `config.json`
(holding `storage_pth` and `password_salt`) and the companion `hash` file
(holding the raw verifier bytes). -/
structure Files where
  configFile : Option (String × String)
  hashFile : Option ScryptKey
deriving DecidableEq, Repr

/-- `AppConfig` (config.py lines 14-48): the pydantic model with fields
`storage_pth` and `password_salt`; `_password_hash` is the private attribute
filled by `model_post_init` from the `hash` file. -/
structure AppConfig where
  storage_pth : String
  password_salt : String
  _password_hash : Option ScryptKey
deriving DecidableEq, Repr

/-- `AppConfig.model_post_init` (config.py lines 24-36): after construction,
read the `hash` file into `_password_hash` when it exists, otherwise leave
`_password_hash` as `None`.  (The `sys.exit(1)` branch on an unreadable file
is an I/O failure outside the model.) -/
def AppConfig.model_post_init (storage_pth password_salt : String)
    (files : Files) : AppConfig :=
  { storage_pth := storage_pth, password_salt := password_salt,
    _password_hash := files.hashFile }

/-- `AppConfig.from_json` (config.py lines 50-65): parse the persisted config
record and construct the model (running `model_post_init`).  The `sys.exit(1)`
branches concern unreadable or malformed files, which the model represents as
an already-parsed `configFile`. -/
def AppConfig.from_json (cfg : String × String) (files : Files) : AppConfig :=
  AppConfig.model_post_init cfg.1 cfg.2 files

/-- The `password_hash` property (config.py lines 38-44): return the stored
hash, or log an error and `sys.exit(1)` when it was never initialized. -/
def AppConfig.password_hash (c : AppConfig) : Except Nat ScryptKey :=
  match c._password_hash with
  | some h => .ok h
  | none => .error 1

/-- `AppConfig.dump` (config.py lines 67-74): write `config.json` and the raw
hash bytes to the `hash` file.  Writing `None` as bytes would raise
(`TypeError`), modelled as a failing exit. -/
def AppConfig.dump (c : AppConfig) (files : Files) : Except Nat Files :=
  match c._password_hash with
  | some h =>
    .ok { files with configFile := some (c.storage_pth, c.password_salt),
                     hashFile := some h }
  | none => .error 1

/-! ## main.py: AppState and the App state machine -/

/-- `AppState` (main.py lines 35-60): the ordered enumeration of UI states. -/
inductive AppState where
  | HARDRESET
  | CONFIRMHARDRESET
  | CONFIRMHARDRESETFAILED
  | INVALIDNEWPASSWORD
  | EMPTY
  | LOGGEDOFF
  | INVALIDPASSWORD
  | LOGGEDON
  | ADDRECORD
  | FINDRECORD
  | DELETERECORD
  | RECORDFOUND
  | RECORDNOTFOUND
  | CHANGEPASSWORD
  | CHANGEPASSWORDFAILED
deriving DecidableEq, Repr

/-- The numeric values assigned to the `AppState` enum members. -/
def AppState.value : AppState → Int
  | .HARDRESET => -100
  | .CONFIRMHARDRESET => -99
  | .CONFIRMHARDRESETFAILED => -98
  | .INVALIDNEWPASSWORD => -2
  | .EMPTY => -1
  | .LOGGEDOFF => 0
  | .INVALIDPASSWORD => 1
  | .LOGGEDON => 2
  | .ADDRECORD => 3
  | .FINDRECORD => 4
  | .DELETERECORD => 5
  | .RECORDFOUND => 6
  | .RECORDNOTFOUND => 7
  | .CHANGEPASSWORD => 100
  | .CHANGEPASSWORDFAILED => 101

/-- The `total_ordering` comparison on `AppState` (main.py lines 57-60),
comparing the numeric values. -/
def AppState.leb (a b : AppState) : Bool := decide (a.value ≤ b.value)

/-- The gate on the `Reset..` menu (main.py line 193):
`self.state >= AppState.LOGGEDON`. -/
def resetMenuGate (s : AppState) : Bool := AppState.leb .LOGGEDON s

/-- The gate on the record-operations branch (main.py line 270):
`self.state >= AppState.LOGGEDON and self.state <= AppState.RECORDNOTFOUND`. -/
def mainGate (s : AppState) : Bool :=
  AppState.leb .LOGGEDON s && AppState.leb s .RECORDNOTFOUND

/-- The authenticated states of the spec: `LoggedOn` through
`RecordNotFound`. -/
def isAuthState : AppState → Bool
  | .LOGGEDON | .ADDRECORD | .FINDRECORD | .DELETERECORD
  | .RECORDFOUND | .RECORDNOTFOUND => true
  | _ => false

/-- `App` (main.py lines 94-131): the live application object, together with
the persisted artifacts (`files`) of its storage directory. -/
structure App where
  encoder : Option Encoder
  user_input : String
  user_input2 : String
  config : AppConfig
  state : AppState
  db : Database
  files : Files
deriving DecidableEq, Repr

/-- `App.__init__` (main.py lines 95-129): load the config and start
`LOGGEDOFF` when `config.json` exists, otherwise build a fresh config with a
generated salt and start `EMPTY`; the encoder starts absent and the database
is opened.  `fresh_salt` stands for the `gen_salt()` output and `db0` for the
rows already in `db.sqlite`. -/
def App.init (files : Files) (db0 : Database)
    (fresh_salt storage_pth : String) : App :=
  match files.configFile with
  | some cfg =>
    { encoder := none, user_input := "", user_input2 := "",
      config := AppConfig.from_json cfg files,
      state := .LOGGEDOFF, db := db0, files := files }
  | none =>
    { encoder := none, user_input := "", user_input2 := "",
      config := AppConfig.model_post_init storage_pth fresh_salt files,
      state := .EMPTY, db := db0, files := files }

/-- One user interaction processed by a frame of `App.frame_commands`:
the menu items, typing into the visible text inputs, and the confirm
button of the currently shown window. -/
inductive UIEvent where
  | changePwdClick
  | hardResetClick
  | typeInput (s : String)
  | typeInput2 (s : String)
  | confirmClick
  | addNoteClick
  | findNoteClick
deriving DecidableEq, Repr

/-- States whose window draws the single-line text input
(main.py lines 210, 241, 277). -/
def inputShownState : AppState → Bool
  | .EMPTY | .LOGGEDOFF | .ADDRECORD => true
  | _ => false

/-- The state-dependent handling of the confirm button inside
`App.frame_commands` (main.py lines 205-314).  The result is `Except` because
the `password_hash` property may terminate the process, as would the dormant
`self.encoder.encode` debug calls if no encoder were present. -/
def confirmStep (app : App) : Except Nat App :=
  match app.state with
  | .EMPTY =>
    if app.user_input = "" then .ok app
    else if password_meets_requirements app.user_input then
      let enc := Encoder.init app.user_input app.config.password_salt
      let cfg := { app.config with _password_hash := some enc.password_hash }
      match cfg.dump app.files with
      | .error code => .error code
      | .ok files2 =>
        .ok { app with encoder := some enc, config := cfg, files := files2,
                       state := .LOGGEDOFF, user_input := "" }
    else .ok { app with state := .INVALIDNEWPASSWORD, user_input := "" }
  | .INVALIDNEWPASSWORD => .ok { app with state := .EMPTY }
  | .LOGGEDOFF =>
    if app.user_input = "" then .ok app
    else
      match app.config.password_hash with
      | .error code => .error code
      | .ok stored =>
        if verify_password app.user_input app.config.password_salt stored then
          .ok { app with
                  encoder := some (Encoder.init app.user_input
                    app.config.password_salt),
                  state := .LOGGEDON, user_input := "" }
        else .ok { app with state := .INVALIDPASSWORD, user_input := "" }
  | .INVALIDPASSWORD => .ok { app with state := .LOGGEDOFF }
  | .ADDRECORD =>
    if app.user_input = "" ∨ app.user_input2 = "" then .ok app
    else
      match app.encoder with
      | none => .error 1
      | some _ =>
        .ok { app with user_input := "", user_input2 := "",
                       state := .LOGGEDON }
  | _ => .ok app

/-- One frame of `App.frame_commands` (main.py lines 180-314) processing one
user interaction: the always-drawn menu bar with its gated `Reset..` menu,
the text inputs of the visible window, the options menu of the authenticated
branch, and the confirm button. -/
def frame (app : App) (ev : UIEvent) : Except Nat App :=
  match ev with
  | .changePwdClick =>
    .ok (if resetMenuGate app.state then { app with state := .CHANGEPASSWORD }
         else app)
  | .hardResetClick =>
    .ok (if resetMenuGate app.state then { app with state := .CONFIRMHARDRESET }
         else app)
  | .typeInput s =>
    .ok (if inputShownState app.state then { app with user_input := s }
         else app)
  | .typeInput2 s =>
    .ok (if app.state = .ADDRECORD then { app with user_input2 := s }
         else app)
  | .addNoteClick =>
    .ok (if mainGate app.state then { app with state := .ADDRECORD } else app)
  | .findNoteClick =>
    .ok (if mainGate app.state then { app with state := .FINDRECORD } else app)
  | .confirmClick => confirmStep app

/-- The application states reachable from startup. -/
inductive Reachable : App → Prop where
  | startup (files : Files) (db0 : Database) (fresh_salt storage_pth : String) :
      Reachable (App.init files db0 fresh_salt storage_pth)
  | step (a b : App) (ev : UIEvent) :
      Reachable a → frame a ev = .ok b → Reachable b

deriving instance DecidableEq for Except

/-! ## Derived predicates and concrete fixtures -/

/-- The reachable states in which no session may be held: everything up to a
successful first registration or login. -/
def sessionFreeState : AppState → Bool
  | .EMPTY | .INVALIDNEWPASSWORD | .LOGGEDOFF | .INVALIDPASSWORD => true
  | _ => false

/-- The session invariant that actually holds on reachable states: the
encoder is absent in the pre-registration states and present in every state
at or beyond a successful login. -/
def SessionInv (a : App) : Prop :=
  ((a.state = .EMPTY ∨ a.state = .INVALIDNEWPASSWORD) → a.encoder = none) ∧
  (sessionFreeState a.state = false → a.encoder ≠ none)

/-- Fixture: an empty storage directory. -/
def noFiles : Files := { configFile := none, hashFile := none }

/-- Fixture for the C3 trace: the app freshly started on an empty directory. -/
def c3app0 : App := App.init noFiles [] "salt" "pth"

/-- Fixture for the C3 trace: `c3app0` after typing a valid password. -/
def c3app1 : App := { c3app0 with user_input := "Str0ng!Pass" }

/-- Fixture for the C3 trace: `c3app1` after confirming, i.e. after the
initial registration. -/
def c3app2 : App :=
  { encoder := some (Encoder.init "Str0ng!Pass" "salt"), user_input := "",
    user_input2 := "",
    config := { storage_pth := "pth", password_salt := "salt",
                _password_hash := some (derive_key "Str0ng!Pass" "salt") },
    state := .LOGGEDOFF, db := [],
    files := { configFile := some ("pth", "salt"),
               hashFile := some (derive_key "Str0ng!Pass" "salt") } }

/-- Fixture for C5: an authenticated app in the `ADDRECORD` state with a
non-empty title `"t"` and body `"b"` typed in and an empty record store. -/
def c5app : App :=
  { encoder := some (Encoder.init "pw" "salt"), user_input := "t",
    user_input2 := "b",
    config := { storage_pth := "pth", password_salt := "salt",
                _password_hash := some (derive_key "pw" "salt") },
    state := .ADDRECORD, db := [],
    files := { configFile := some ("pth", "salt"),
               hashFile := some (derive_key "pw" "salt") } }

/-- Fixture for C7: a fresh vault in the `EMPTY` state with a valid password
typed in. -/
def c7app : App :=
  { encoder := none, user_input := "Str0ng!Pass", user_input2 := "",
    config := { storage_pth := "pth", password_salt := "salt",
                _password_hash := none },
    state := .EMPTY, db := [], files := noFiles }

/-- Fixture for C7's counterexample: the same fresh vault with an empty
input. -/
def c7app0 : App := { c7app with user_input := "" }

/-- Fixture for C8: an initialized vault in the `LOGGEDOFF` state whose
stored verifier belongs to `"Str0ng!Pass"`, with that password typed in. -/
def c8app : App :=
  { encoder := none, user_input := "Str0ng!Pass", user_input2 := "",
    config := { storage_pth := "pth", password_salt := "salt",
                _password_hash := some (derive_key "Str0ng!Pass" "salt") },
    state := .LOGGEDOFF, db := [("t", "x")],
    files := { configFile := some ("pth", "salt"),
               hashFile := some (derive_key "Str0ng!Pass" "salt") } }

/-- Fixture for C8's counterexample: the same vault with an empty input
(an empty password is an incorrect password). -/
def c8app0 : App := { c8app with user_input := "" }

/-- Fixture for C10: a storage directory holding `config.json` but no
companion `hash` file. -/
def c10files1 : Files := { configFile := some ("pth", "salt"), hashFile := none }

/-- Fixture for C10: a storage directory holding a `hash` file but no
`config.json`. -/
def c10files2 : Files :=
  { configFile := none, hashFile := some (derive_key "old" "salt") }

/-! ## Serialization lemmas for the Fernet model -/

theorem natEncAux_mem_lt (fuel n b : Nat) (hb : b ∈ natEncAux fuel n) :
    b < 255 := by
  induction fuel generalizing n with
  | zero => cases n <;> simp [natEncAux] at hb
  | succ fuel ih =>
    cases n with
    | zero => simp [natEncAux] at hb
    | succ m =>
      simp only [natEncAux, List.mem_cons] at hb
      rcases hb with hb | hb
      · subst hb
        exact Nat.mod_lt _ (by omega)
      · exact ih _ hb

theorem natEnc_mem_lt (n b : Nat) (hb : b ∈ natEnc n) : b < 256 := by
  simp only [natEnc, List.mem_append, List.mem_singleton] at hb
  rcases hb with hb | hb
  · exact Nat.lt_of_lt_of_le (natEncAux_mem_lt n n b hb) (by omega)
  · omega

theorem strEnc_mem_lt (s : String) (b : Nat) (hb : b ∈ strEnc s) : b < 256 := by
  simp only [strEnc, List.mem_append, List.mem_flatMap] at hb
  rcases hb with hb | ⟨c, _, hb⟩
  · exact natEnc_mem_lt _ _ hb
  · exact natEnc_mem_lt _ _ hb

theorem natDec_natEncAux (fuel n : Nat) (tail : List Nat) (hfuel : n ≤ fuel) :
    natDec (natEncAux fuel n ++ 255 :: tail) = some (n, tail) := by
  induction fuel generalizing n with
  | zero =>
    interval_cases n
    simp [natEncAux, natDec]
  | succ fuel ih =>
    cases n with
    | zero => simp [natEncAux, natDec]
    | succ m =>
      have hmod : (m + 1) % 255 < 255 := Nat.mod_lt _ (by omega)
      have hdivle : (m + 1) / 255 ≤ fuel := by
        have := Nat.div_lt_self (Nat.succ_pos m) (by omega : 1 < 255)
        omega
      simp only [natEncAux, List.cons_append, natDec]
      rw [if_neg (by omega)]
      simp only [List.append_eq, ih _ hdivle]
      simp [Nat.mod_add_div]

theorem natDec_natEnc (n : Nat) (tail : List Nat) :
    natDec (natEnc n ++ tail) = some (n, tail) := by
  have h := natDec_natEncAux n n tail le_rfl
  simpa [natEnc, List.append_assoc] using h

theorem charsDec_flatMap (cs : List Char) (tail : List Nat) :
    charsDec cs.length (cs.flatMap (fun c => natEnc c.toNat) ++ tail) =
      some (cs, tail) := by
  induction cs with
  | nil => simp [charsDec]
  | cons c cs ih =>
    simp only [List.flatMap_cons, List.length_cons, charsDec, List.append_assoc,
      natDec_natEnc, ih, Char.ofNat_toNat]

theorem strDec_strEnc (s : String) (tail : List Nat) :
    strDec (strEnc s ++ tail) = some (s, tail) := by
  obtain ⟨cs⟩ := s
  simp only [strEnc, strDec, List.append_assoc, natDec_natEnc, charsDec_flatMap]

/-! ## Fernet model: round trip, key binding, tamper detection -/

theorem fernet_roundtrip (key : ScryptKey) (nonce : Nat) (data : String) :
    fernet_decrypt key (fernet_encrypt key nonce data) = some data := by
  have hsalt : strEnc key.salt = strEnc key.salt ++ [] := by simp
  simp only [fernet_encrypt, fernet_decrypt, List.getLast?_concat,
    List.dropLast_concat]
  simp only [if_true]
  rw [hsalt]
  simp only [List.append_assoc, strDec_strEnc, natDec_natEnc]
  simp

theorem fernet_wrong_key (key key2 : ScryptKey) (nonce : Nat) (data : String)
    (hne : key2 ≠ key) :
    fernet_decrypt key2 (fernet_encrypt key nonce data) = none := by
  have hsalt : strEnc key.salt = strEnc key.salt ++ [] := by simp
  simp only [fernet_encrypt, fernet_decrypt, List.getLast?_concat,
    List.dropLast_concat]
  simp only [if_true]
  rw [hsalt]
  simp only [List.append_assoc, strDec_strEnc, natDec_natEnc]
  rw [if_neg]
  intro hcon
  exact hne (by cases key; cases key2; simp_all)

theorem list_sum_set (l : List Nat) (i v : Nat) (h : i < l.length) :
    (l.set i v).sum + l.get ⟨i, h⟩ = l.sum + v := by
  induction l generalizing i with
  | nil => simp at h
  | cons a t ih =>
    cases i with
    | zero => simp [List.set, List.sum_cons, List.get]; omega
    | succ j =>
      have hj : j < t.length := by simpa using h
      have := ih j hj
      simp only [List.set, List.sum_cons, List.get]
      omega

theorem sumMod_set_ne (l : List Nat) (i v : Nat) (h : i < l.length)
    (hbytes : ∀ b ∈ l, b < 256) (hv : v < 256) (hne : v ≠ l.get ⟨i, h⟩) :
    sumMod (l.set i v) ≠ sumMod l := by
  have hs := list_sum_set l i v h
  have hbi : l.get ⟨i, h⟩ < 256 := hbytes _ (List.get_mem l i h)
  simp only [sumMod]
  omega

theorem tagged_flip (l : List Nat) (hbytes : ∀ b ∈ l, b < 256)
    (key2 : ScryptKey) (i v : Nat) (hi : i < (l ++ [sumMod l]).length)
    (hv : v < 256) (hne : v ≠ (l ++ [sumMod l]).get ⟨i, hi⟩) :
    fernet_decrypt key2 ((l ++ [sumMod l]).set i v) = none := by
  have hlen : (l ++ [sumMod l]).length = l.length + 1 := by simp
  rcases Nat.lt_or_ge i l.length with hcase | hcase
  · -- the flipped byte is in the body: the checksum no longer matches
    have hset : (l ++ [sumMod l]).set i v = l.set i v ++ [sumMod l] :=
      List.set_append_left i v hcase
    have hget : (l ++ [sumMod l]).get ⟨i, hi⟩ = l.get ⟨i, hcase⟩ := by
      simp [List.get_eq_getElem, List.getElem_append_left hcase]
    have hck : sumMod (l.set i v) ≠ sumMod l := by
      refine sumMod_set_ne l i v hcase hbytes hv ?_
      rw [← hget]
      exact hne
    rw [hset]
    simp only [fernet_decrypt, List.getLast?_concat, List.dropLast_concat]
    rw [if_neg hck]
  · -- the flipped byte is the checksum byte itself
    have hieq : i = l.length := by omega
    subst hieq
    have hset : (l ++ [sumMod l]).set l.length v = l ++ [v] := by
      rw [List.set_append_right l.length v le_rfl]
      simp
    have hget : (l ++ [sumMod l]).get ⟨l.length, hi⟩ = sumMod l := by
      simp [List.get_eq_getElem, List.getElem_append_right]
    rw [hset]
    simp only [fernet_decrypt, List.getLast?_concat, List.dropLast_concat]
    rw [if_neg]
    rw [hget] at hne
    omega

theorem fernet_body_mem_lt (key : ScryptKey) (nonce : Nat) (data : String)
    (b : Nat)
    (hb : b ∈ strEnc data ++ natEnc nonce ++ strEnc key.password ++
      strEnc key.salt) : b < 256 := by
  simp only [List.mem_append] at hb
  rcases hb with ((hb | hb) | hb) | hb
  · exact strEnc_mem_lt _ _ hb
  · exact natEnc_mem_lt _ _ hb
  · exact strEnc_mem_lt _ _ hb
  · exact strEnc_mem_lt _ _ hb

theorem fernet_flip (key key2 : ScryptKey) (nonce : Nat) (data : String)
    (i v : Nat) (hi : i < (fernet_encrypt key nonce data).length)
    (hv : v < 256)
    (hne : v ≠ (fernet_encrypt key nonce data).get ⟨i, hi⟩) :
    fernet_decrypt key2 ((fernet_encrypt key nonce data).set i v) = none := by
  exact tagged_flip _ (fun b hb => fernet_body_mem_lt key nonce data b hb)
    key2 i v hi hv hne

/-! ## State-machine lemmas -/

theorem resetMenuGate_not_sessionFree (s : AppState)
    (h : resetMenuGate s = true) : sessionFreeState s = false := by
  cases s <;> simp_all [resetMenuGate, AppState.leb, AppState.value,
    sessionFreeState]

theorem mainGate_not_sessionFree (s : AppState)
    (h : mainGate s = true) : sessionFreeState s = false := by
  cases s <;> simp_all [mainGate, AppState.leb, AppState.value,
    sessionFreeState]

theorem isAuthState_not_sessionFree (s : AppState)
    (h : isAuthState s = true) : sessionFreeState s = false := by
  cases s <;> simp_all [isAuthState, sessionFreeState]

theorem init_sessionInv (files : Files) (db0 : Database)
    (fresh_salt storage_pth : String) :
    SessionInv (App.init files db0 fresh_salt storage_pth) := by
  unfold App.init SessionInv
  cases files.configFile <;> simp [sessionFreeState]

theorem step_sessionInv (a b : App) (ev : UIEvent) (hinv : SessionInv a)
    (hf : frame a ev = .ok b) : SessionInv b := by
  obtain ⟨h1, h2⟩ := hinv
  cases ev <;> simp only [frame, Except.ok.injEq] at hf
  case changePwdClick =>
    by_cases hg : resetMenuGate a.state = true
    · rw [if_pos hg] at hf
      subst hf
      refine ⟨by simp, fun _ => h2 (resetMenuGate_not_sessionFree _ hg)⟩
    · rw [if_neg hg] at hf
      subst hf
      exact ⟨h1, h2⟩
  case hardResetClick =>
    by_cases hg : resetMenuGate a.state = true
    · rw [if_pos hg] at hf
      subst hf
      refine ⟨by simp, fun _ => h2 (resetMenuGate_not_sessionFree _ hg)⟩
    · rw [if_neg hg] at hf
      subst hf
      exact ⟨h1, h2⟩
  case typeInput s =>
    by_cases hg : inputShownState a.state = true
    · rw [if_pos hg] at hf
      subst hf
      exact ⟨h1, h2⟩
    · rw [if_neg hg] at hf
      subst hf
      exact ⟨h1, h2⟩
  case typeInput2 s =>
    by_cases hg : a.state = .ADDRECORD
    · rw [if_pos hg] at hf
      subst hf
      exact ⟨h1, h2⟩
    · rw [if_neg hg] at hf
      subst hf
      exact ⟨h1, h2⟩
  case addNoteClick =>
    by_cases hg : mainGate a.state = true
    · rw [if_pos hg] at hf
      subst hf
      refine ⟨by simp, fun _ => h2 (mainGate_not_sessionFree _ hg)⟩
    · rw [if_neg hg] at hf
      subst hf
      exact ⟨h1, h2⟩
  case findNoteClick =>
    by_cases hg : mainGate a.state = true
    · rw [if_pos hg] at hf
      subst hf
      refine ⟨by simp, fun _ => h2 (mainGate_not_sessionFree _ hg)⟩
    · rw [if_neg hg] at hf
      subst hf
      exact ⟨h1, h2⟩
  case confirmClick =>
    unfold confirmStep at hf
    split at hf
    next hsa =>
      -- EMPTY
      split at hf
      next hempty =>
        cases hf
        exact ⟨h1, h2⟩
      next hempty =>
        split at hf
        next hreq =>
          simp only [AppConfig.dump] at hf
          cases hf
          exact ⟨by simp, by simp [sessionFreeState]⟩
        next hreq =>
          cases hf
          exact ⟨fun _ => h1 (Or.inl hsa), by simp [sessionFreeState]⟩
    next hsa =>
      -- INVALIDNEWPASSWORD
      cases hf
      exact ⟨fun _ => h1 (Or.inr hsa), by simp [sessionFreeState]⟩
    next hsa =>
      -- LOGGEDOFF
      split at hf
      next hempty =>
        cases hf
        exact ⟨h1, h2⟩
      next hempty =>
        split at hf
        next code hh => cases hf
        next stored hh =>
          split at hf
          next hv =>
            cases hf
            exact ⟨by simp, by simp⟩
          next hv =>
            cases hf
            exact ⟨by simp, by simp [sessionFreeState]⟩
    next hsa =>
      -- INVALIDPASSWORD
      cases hf
      exact ⟨by simp, by simp [sessionFreeState]⟩
    next hsa =>
      -- ADDRECORD
      split at hf
      next hempty =>
        cases hf
        exact ⟨h1, h2⟩
      next hempty =>
        split at hf
        next he => cases hf
        next enc he =>
          cases hf
          exact ⟨by simp, by simp [he]⟩
    next =>
      -- all remaining states leave the app unchanged
      cases hf
      exact ⟨h1, h2⟩

theorem reachable_sessionInv (a : App) (h : Reachable a) : SessionInv a := by
  induction h with
  | startup files db0 fresh_salt storage_pth =>
    exact init_sessionInv files db0 fresh_salt storage_pth
  | step a b ev _ hf ih => exact step_sessionInv a b ev ih hf

/-! ## Record store lemmas -/

theorem fetch_record_append_none (db l : Database) (t : String)
    (h : fetch_record db t = none) :
    fetch_record (db ++ l) t = fetch_record l t := by
  induction db with
  | nil => simp
  | cons r rest ih =>
    obtain ⟨name, body⟩ := r
    by_cases hn : name = t
    · simp [fetch_record, hn] at h
    · simp only [fetch_record, if_neg hn] at h
      simpa [fetch_record, hn] using ih h

theorem fetch_record_del (db : Database) (t : String) :
    fetch_record (del_record db t) t = none := by
  induction db with
  | nil => simp [del_record, fetch_record]
  | cons r rest ih =>
    obtain ⟨name, body⟩ := r
    by_cases hn : name = t
    · simpa [del_record, hn] using ih
    · simpa [del_record, fetch_record, hn] using ih

theorem del_record_absent (db : Database) (t : String)
    (h : fetch_record db t = none) : del_record db t = db := by
  induction db with
  | nil => simp [del_record]
  | cons r rest ih =>
    obtain ⟨name, body⟩ := r
    by_cases hn : name = t
    · simp [fetch_record, hn] at h
    · simp only [fetch_record, if_neg hn] at h
      simp [del_record, hn, ih h]

/-! ## Claim theorems -/

/-- Claim C1: for every text plaintext `x` and every session key (any
password and salt), decrypting the token produced by encrypting `x` under
that key returns `x` unchanged: `Encoder.decode (Encoder.encode x) = x` for
the lifetime of the key. -/
theorem claim_C1_roundtrip (password salt : String) (nonce : Nat) (x : String) :
    Encoder.decode (Encoder.init password salt)
      (Encoder.encode (Encoder.init password salt) nonce x) = some x :=
  fernet_roundtrip (derive_key password salt) nonce x

/-- Claim C2: `verify_password p s (derive_key p s)` is true for every `p`
and `s`; `verify_password p s (derive_key p2 s)` is false whenever `p ≠ p2`;
and on any mismatch `verify_password` only returns false (the `InvalidKey`
exception is caught), it never raises. -/
theorem claim_C2_verify :
    (∀ password salt : String,
      verify_password password salt (derive_key password salt) = true)
    ∧ (∀ password password2 salt : String, password ≠ password2 →
      verify_password password salt (derive_key password2 salt) = false)
    ∧ (∀ (password salt : String) (key : ScryptKey),
      derive_key password salt ≠ key →
      verify_password password salt key = false) := by
  refine ⟨fun password salt => ?_, fun password password2 salt hne => ?_,
    fun password salt key hne => ?_⟩
  · simp [verify_password, scrypt_verify]
  · simp only [verify_password, scrypt_verify]
    rw [if_neg]
    intro hcon
    exact hne (by simpa [derive_key, ScryptKey.mk.injEq] using hcon)
  · simp [verify_password, scrypt_verify, hne]

/-- Witness for C2 at concrete inputs. -/
theorem claim_C2_witness :
    verify_password "Str0ng!Pass" "salt"
      (derive_key "Str0ng!Pass" "salt") = true
    ∧ verify_password "aaaaaaaa" "salt" (derive_key "bbbbbbbb" "salt") = false :=
  ⟨claim_C2_verify.1 "Str0ng!Pass" "salt",
   claim_C2_verify.2.1 "aaaaaaaa" "bbbbbbbb" "salt" (by decide)⟩

/-- Claim C6: every single-byte modification of a token produced by
`Encoder.encode` makes `Encoder.decode` fail (return the `CipherError`
result, `none`) under any key, and decoding an unmodified token under a key
different from the one that produced it fails likewise; altered or partially
decrypted plaintext is never returned. -/
theorem claim_C6_tamper :
    (∀ (password salt : String) (nonce : Nat) (x : String) (e2 : Encoder)
      (i v : Nat)
      (hi : i < (Encoder.encode (Encoder.init password salt) nonce x).length),
      v < 256 →
      v ≠ (Encoder.encode (Encoder.init password salt) nonce x).get ⟨i, hi⟩ →
      Encoder.decode e2
        ((Encoder.encode (Encoder.init password salt) nonce x).set i v) = none)
    ∧ (∀ (password salt : String) (nonce : Nat) (x : String) (e2 : Encoder),
      e2.password_hash ≠ derive_key password salt →
      Encoder.decode e2 (Encoder.encode (Encoder.init password salt) nonce x) =
        none) := by
  constructor
  · intro password salt nonce x e2 i v hi hv hne
    exact fernet_flip (derive_key password salt) e2.password_hash nonce x
      i v hi hv hne
  · intro password salt nonce x e2 hne
    exact fernet_wrong_key (derive_key password salt) e2.password_hash nonce
      x hne

/-- Witness for C6 at concrete inputs: flipping byte 0 of a concrete token,
and decoding it under a different password's key, both fail. -/
theorem claim_C6_witness :
    Encoder.decode (Encoder.init "a" "b")
      ((Encoder.encode (Encoder.init "a" "b") 0 "hi").set 0 7) = none
    ∧ Encoder.decode (Encoder.init "x" "b")
      (Encoder.encode (Encoder.init "a" "b") 0 "hi") = none :=
  ⟨claim_C6_tamper.1 "a" "b" 0 "hi" (Encoder.init "a" "b") 0 7 (by decide)
      (by decide) (by decide),
   claim_C6_tamper.2 "a" "b" 0 "hi" (Encoder.init "x" "b") (by decide)⟩

/-- Claim C9: the record store behaves as a finite map with unique titles:
after a successful `add_record` the body can be fetched back; after
`del_record` the title is absent; deleting an absent title is a no-op and
not an error; and adding an already-present title fails with
`DuplicateTitleError` instead of overwriting. -/
theorem claim_C9_recordstore :
    (∀ (db : Database) (title body : String) (db2 : Database),
      add_record db title body = .ok db2 →
      fetch_record db2 title = some body)
    ∧ (∀ (db : Database) (title : String),
      fetch_record (del_record db title) title = none)
    ∧ (∀ (db : Database) (title : String),
      fetch_record db title = none → del_record db title = db)
    ∧ (∀ (db : Database) (title body body2 : String) (db2 : Database),
      add_record db title body = .ok db2 →
      add_record db2 title body2 = .error .duplicateTitle) := by
  have hadd : ∀ (db : Database) (title body : String) (db2 : Database),
      add_record db title body = .ok db2 →
      fetch_record db2 title = some body := by
    intro db title body db2 hok
    unfold add_record at hok
    cases hfetch : fetch_record db title with
    | some b => rw [hfetch] at hok; cases hok
    | none =>
      rw [hfetch] at hok
      cases hok
      rw [fetch_record_append_none db _ title hfetch]
      simp [fetch_record]
  refine ⟨hadd, fun db title => fetch_record_del db title,
    fun db title h => del_record_absent db title h, ?_⟩
  intro db title body body2 db2 hok
  have := hadd db title body db2 hok
  unfold add_record
  rw [this]

/-- Witness for C9 at concrete inputs: inserting `("t", "b")` into the empty
store makes it fetchable, and a second insert of the same title fails. -/
theorem claim_C9_witness :
    fetch_record [("t", "b")] "t" = some "b"
    ∧ add_record [("t", "b")] "t" "b2" = .error .duplicateTitle :=
  ⟨claim_C9_recordstore.1 [] "t" "b" [("t", "b")] (by decide),
   claim_C9_recordstore.2.2.2 [] "t" "b" "b2" [("t", "b")] (by decide)⟩

/-- Counterexample to Claim C3 as stated: after the initial registration the
app is reachable in state `LOGGEDOFF` while still holding the session
encoder, so the Session is not present only in authenticated states (and is
not discarded when leaving them). -/
theorem claim_C3_cex :
    Reachable c3app2 ∧ c3app2.encoder.isSome = true
    ∧ isAuthState c3app2.state = false := by
  refine ⟨?_, by decide, by decide⟩
  have h0 : Reachable c3app0 := Reachable.startup noFiles [] "salt" "pth"
  have h1 : Reachable c3app1 :=
    Reachable.step c3app0 c3app1 (.typeInput "Str0ng!Pass") h0 (by decide)
  exact Reachable.step c3app1 c3app2 .confirmClick h1 (by decide)

/-- Claim C3 (amended): in every reachable state the encoder is absent in
the pre-registration states `EMPTY` and `INVALIDNEWPASSWORD` and present in
every authenticated state; however it may also be present in `LOGGEDOFF` and
`INVALIDPASSWORD` (the registration flow constructs it before moving to
`LOGGEDOFF`, and the code never discards it: there is no logoff and a failed
login keeps it). -/
theorem claim_C3_session (a : App) (h : Reachable a) :
    ((a.state = .EMPTY ∨ a.state = .INVALIDNEWPASSWORD) → a.encoder = none)
    ∧ (isAuthState a.state = true → a.encoder ≠ none) := by
  have hinv := reachable_sessionInv a h
  exact ⟨hinv.1, fun hauth => hinv.2 (isAuthState_not_sessionFree _ hauth)⟩

/-- Witness for C3 at a concrete reachable state: the freshly started app
holds no encoder. -/
theorem claim_C3_witness : (App.init noFiles [] "salt" "pth").encoder = none :=
  (claim_C3_session (App.init noFiles [] "salt" "pth")
    (Reachable.startup noFiles [] "salt" "pth")).1 (Or.inl rfl)

/-- Counterexample to Claim C4 as stated: the reset-menu gate
(`state >= LOGGEDON`, main.py line 193) also holds in `CHANGEPASSWORD`,
which is not an authenticated state. -/
theorem claim_C4_cex :
    resetMenuGate AppState.CHANGEPASSWORD = true
    ∧ isAuthState AppState.CHANGEPASSWORD = false := by decide

/-- Claim C4 (amended): the record-operations gate (main.py line 270) holds
exactly for the six authenticated states, but the reset-menu gate (main.py
line 193) is only a lower-bound comparison and holds for those six states
plus `CHANGEPASSWORD` and `CHANGEPASSWORDFAILED`. -/
theorem claim_C4_gates (s : AppState) :
    (mainGate s = true ↔ isAuthState s = true)
    ∧ (resetMenuGate s = true ↔
      (isAuthState s = true ∨ s = .CHANGEPASSWORD ∨ s = .CHANGEPASSWORDFAILED)) := by
  cases s <;> simp [mainGate, resetMenuGate, isAuthState, AppState.leb,
    AppState.value]

/-- Claim C5, evaluated at its failing input: in state `ADDRECORD` with
non-empty title and body, confirming returns to `LOGGEDON` but stores
nothing at all — the `db.add_record` call is commented out in the source
(main.py lines 301-304), so the record store is unchanged and the title
remains absent from it. -/
theorem claim_C5_addrecord :
    frame c5app .confirmClick =
      .ok { c5app with user_input := "", user_input2 := "",
                       state := .LOGGEDON }
    ∧ ((frame c5app .confirmClick).map App.db = .ok c5app.db)
    ∧ fetch_record c5app.db "t" = none := by decide

/-- Counterexample to Claim C7 as stated: the empty password fails the
requirements, yet confirming it in state `EMPTY` does not move to
`INVALIDNEWPASSWORD` — the confirm handler is guarded by
`len(self.user_input)` (main.py line 217) and ignores it, leaving the state
`EMPTY`. -/
theorem claim_C7_cex :
    password_meets_requirements "" = false
    ∧ frame c7app0 .confirmClick = .ok c7app0
    ∧ c7app0.state = .EMPTY := by decide

/-- Claim C7 (amended): from state `EMPTY`, confirming a non-empty password
that satisfies `password_meets_requirements` derives the key, sets the
verifier in the config, persists the config (both `config.json` and the
`hash` file), and moves to `LOGGEDOFF`; confirming a non-empty password that
fails the requirements moves to `INVALIDNEWPASSWORD` without touching the
verifier or the persisted files; confirming an empty input is ignored. -/
theorem claim_C7_register (app : App) (p : String)
    (hstate : app.state = .EMPTY) (hin : app.user_input = p) :
    (p ≠ "" → password_meets_requirements p = true →
      frame app .confirmClick = .ok
        { app with
            encoder := some (Encoder.init p app.config.password_salt),
            config := { app.config with
              _password_hash := some (derive_key p app.config.password_salt) },
            files := { app.files with
              configFile := some (app.config.storage_pth,
                app.config.password_salt),
              hashFile := some (derive_key p app.config.password_salt) },
            state := .LOGGEDOFF, user_input := "" })
    ∧ (p ≠ "" → password_meets_requirements p = false →
      frame app .confirmClick = .ok
        { app with state := .INVALIDNEWPASSWORD, user_input := "" })
    ∧ (p = "" → frame app .confirmClick = .ok app) := by
  subst hin
  refine ⟨fun hne hreq => ?_, fun hne hreq => ?_, fun hemp => ?_⟩
  · simp [frame, confirmStep, hstate, hne, hreq, AppConfig.dump,
      Encoder.init, derive_key]
  · simp [frame, confirmStep, hstate, hne, hreq]
  · simp [frame, confirmStep, hstate, hemp]

/-- Witness for C7 at a concrete fresh vault and the password
`"Str0ng!Pass"`. -/
theorem claim_C7_witness :
    frame c7app .confirmClick = .ok
      { c7app with
          encoder := some (Encoder.init "Str0ng!Pass"
            c7app.config.password_salt),
          config := { c7app.config with
            _password_hash := some (derive_key "Str0ng!Pass"
              c7app.config.password_salt) },
          files := { c7app.files with
            configFile := some (c7app.config.storage_pth,
              c7app.config.password_salt),
            hashFile := some (derive_key "Str0ng!Pass"
              c7app.config.password_salt) },
          state := .LOGGEDOFF, user_input := "" } :=
  (claim_C7_register c7app "Str0ng!Pass" rfl rfl).1 (by decide) (by decide)

/-- Counterexample to Claim C8 as stated: with a verifier stored for
`"Str0ng!Pass"`, the empty password is incorrect (`verify_password` fails),
yet confirming it in state `LOGGEDOFF` does not move to `INVALIDPASSWORD` —
the login handler is guarded by `len(self.user_input)` (main.py line 248)
and ignores it, leaving the state `LOGGEDOFF`. -/
theorem claim_C8_cex :
    verify_password "" "salt" (derive_key "Str0ng!Pass" "salt") = false
    ∧ frame c8app0 .confirmClick = .ok c8app0
    ∧ c8app0.state = .LOGGEDOFF := by decide

/-- Claim C8 (amended): from state `LOGGEDOFF` with a stored verifier,
confirming a non-empty password for which `verify_password` succeeds
establishes the session encoder and moves to `LOGGEDON`; confirming a
non-empty password for which it fails moves to `INVALIDPASSWORD` and leaves
the persisted files, the config and the record store unchanged (only the
state and the input buffer change); confirming an empty input is ignored. -/
theorem claim_C8_login (app : App) (p : String) (stored : ScryptKey)
    (hstate : app.state = .LOGGEDOFF) (hin : app.user_input = p)
    (hhash : app.config._password_hash = some stored) :
    (p ≠ "" → verify_password p app.config.password_salt stored = true →
      frame app .confirmClick = .ok
        { app with
            encoder := some (Encoder.init p app.config.password_salt),
            state := .LOGGEDON, user_input := "" })
    ∧ (p ≠ "" → verify_password p app.config.password_salt stored = false →
      frame app .confirmClick = .ok
        { app with state := .INVALIDPASSWORD, user_input := "" })
    ∧ (p = "" → frame app .confirmClick = .ok app) := by
  subst hin
  refine ⟨fun hne hv => ?_, fun hne hv => ?_, fun hemp => ?_⟩
  · simp [frame, confirmStep, hstate, hne, hv, AppConfig.password_hash, hhash]
  · simp [frame, confirmStep, hstate, hne, hv, AppConfig.password_hash, hhash]
  · simp [frame, confirmStep, hstate, hemp]

/-- Witness for C8 at a concrete initialized vault: the correct password
logs in, establishing the session. -/
theorem claim_C8_witness :
    frame c8app .confirmClick = .ok
      { c8app with
          encoder := some (Encoder.init "Str0ng!Pass"
            c8app.config.password_salt),
          state := .LOGGEDON, user_input := "" } :=
  (claim_C8_login c8app "Str0ng!Pass" (derive_key "Str0ng!Pass" "salt")
    rfl rfl rfl).1 (by decide) (by decide)

/-- Counterexample to Claim C10 as stated: a `config.json` without the
companion `hash` file loads without any error into the normal `LOGGEDOFF`
flow, and a `hash` file without `config.json` is accepted as a brand-new
vault (state `EMPTY`) that even picks up the stale hash bytes — neither
mismatch is reported as a corrupt-vault error at load. -/
theorem claim_C10_cex :
    (App.init c10files1 [] "fresh" "pth").state = .LOGGEDOFF
    ∧ (App.init c10files2 [] "fresh" "pth").state = .EMPTY
    ∧ (App.init c10files2 [] "fresh" "pth").config._password_hash =
      some (derive_key "old" "salt") := by decide

/-- Claim C10 (amended): loading a vault whose `config.json` exists but
whose `hash` file is missing succeeds (state `LOGGEDOFF`, verifier absent);
the corruption only surfaces as a fatal exit when the verifier is first
accessed, i.e. on the first non-empty login attempt.  Conversely a `hash`
file without `config.json` is never reported: the vault starts as brand new
(state `EMPTY`) with the stale hash bytes loaded into the fresh config. -/
theorem claim_C10_missing_artifact (files : Files) (db0 : Database)
    (fresh_salt storage_pth : String) :
    (∀ cfg : String × String, files.configFile = some cfg →
      files.hashFile = none →
      (App.init files db0 fresh_salt storage_pth).state = .LOGGEDOFF
      ∧ (App.init files db0 fresh_salt storage_pth).config._password_hash =
        none
      ∧ ∀ p : String, p ≠ "" →
        (frame (App.init files db0 fresh_salt storage_pth)
          (.typeInput p)).bind (fun a => frame a .confirmClick) = .error 1)
    ∧ (∀ k : ScryptKey, files.configFile = none → files.hashFile = some k →
      (App.init files db0 fresh_salt storage_pth).state = .EMPTY
      ∧ (App.init files db0 fresh_salt storage_pth).config._password_hash =
        some k) := by
  constructor
  · intro cfg hc hh
    refine ⟨?_, ?_, ?_⟩
    · simp [App.init, hc]
    · simp [App.init, hc, AppConfig.from_json, AppConfig.model_post_init, hh]
    · intro p hp
      simp [App.init, hc, AppConfig.from_json, AppConfig.model_post_init, hh,
        frame, inputShownState, confirmStep, hp, Except.bind,
        AppConfig.password_hash]
  · intro k hc hh
    constructor
    · simp [App.init, hc]
    · simp [App.init, hc, AppConfig.model_post_init, hh]

/-- Witness for C10 at concrete directories: the config-without-hash vault
exits fatally on the first login attempt, and the hash-without-config vault
carries the stale hash. -/
theorem claim_C10_witness :
    (frame (App.init c10files1 [] "fresh" "pth") (.typeInput "x")).bind
      (fun a => frame a .confirmClick) = .error 1
    ∧ (App.init c10files2 [] "fresh" "pth").config._password_hash =
      some (derive_key "old" "salt") :=
  ⟨((claim_C10_missing_artifact c10files1 [] "fresh" "pth").1 ("pth", "salt")
      rfl rfl).2.2 "x" (by decide),
   ((claim_C10_missing_artifact c10files2 [] "fresh" "pth").2
      (derive_key "old" "salt") rfl rfl).2⟩
